import Mathlib

/-!
# Verification of the DS3231 protocol decoder (src/ds3231/pd.py)

Shallow embedding of the decoder: the session state (`St`) mirrors the
fields set in `Decoder.reset`/`Decoder.start`, each `handle_reg_0x??`
method becomes a Lean function of the data byte, the direction string
and the state, and `Decoder.decode` becomes a step function on packets.
Emitted annotations are collected in an output list in the order of the
`self.put` calls of the source.
-/

namespace DS3231

/-- Modelled from the spec: the helper `bcd2int` is imported from the
external library `common.srdhelper` and is not part of the sources;
§4.3 of the spec defines it as `((maskedByte >> 4) * 10) + (maskedByte & 0x0F)`. -/
def bcd2int (b : Nat) : Nat := ((b >>> 4) * 10) + (b &&& 0x0F)

/-- The `days_of_week` dictionary (pd.py lines 29-31): first-day-of-week
string to the 7-element ordering of weekday names.  The decoder options
restrict the key to the three entries below; the empty list stands for
Python's `KeyError` on any other key (unreachable under valid options). -/
def days_of_week (fdw : String) : List String :=
  if fdw = "Monday" then
    ["Monday", "Tuesday", "Wednesday", "Thursday", "Friday", "Saturday", "Sunday"]
  else if fdw = "Sunday" then
    ["Sunday", "Monday", "Tuesday", "Wednesday", "Thursday", "Friday", "Saturday"]
  else if fdw = "Saturday" then
    ["Saturday", "Sunday", "Monday", "Tuesday", "Wednesday", "Thursday", "Friday"]
  else []

/-- Python sequence indexing `l[i]`, including the negative-index
convention (`l[-1]` is the last element).  The handlers only ever index
with `i` in `[-1, 6]` into a 7-element list, so the default never shows
through for valid configurations. -/
def pyIndex (l : List String) (i : Int) : String :=
  if i < 0 then l.getD ((l.length : Int) + i).toNat ("") else l.getD i.toNat ("")

/-- The `rates` dictionary (pd.py lines 59-64): square-wave rate labels
indexed by the two rate-select bits. -/
def rates (n : Nat) : String :=
  if n = 0 then "1Hz" else if n = 1 then "1024Hz" else if n = 2 then "4096Hz" else "8192Hz"

def DS3231_I2C_ADDRESS : Nat := 0x68

/-- Python `'%02d' % n`: zero-pad a decimal rendering to width two. -/
def pad2 (n : Int) : String :=
  if 0 ≤ n ∧ n < 10 then "0" ++ toString n else toString n

/-- Python `'%4d' % n`: space-pad a decimal rendering to width four. -/
def pad4 (n : Int) : String :=
  let t := toString n
  if t.length < 4 then String.mk (List.replicate (4 - t.length) ' ') ++ t else t

/-- Uppercase hexadecimal digits of a natural number. -/
def hexStr (m : Nat) : String := String.mk ((Nat.toDigits 16 m).map Char.toUpper)

/-- Python `'%02X' % n`: uppercase hex, zero-padded to width two. -/
def pyHex02X (n : Int) : String :=
  if n < 0 then "-" ++ hexStr n.natAbs
  else
    let t := hexStr n.toNat
    if t.length < 2 then "0" ++ t else t

/-- Python `'%.2f' % (t / 4)` for an integer `t`: the quotient is an
exact multiple of 0.25, so the two rendered decimals are exact. -/
def pyFloatQuarters (t : Int) : String :=
  let sign := if t < 0 then "-" else ""
  let n := t.natAbs
  let frac := if n % 4 = 0 then "00" else if n % 4 = 1 then "25" else if n % 4 = 2 then "50" else "75"
  sign ++ toString (n / 4) ++ "." ++ frac

/-- Annotation classes, mirroring the `Ann` enum generated in pd.py
(lines 74-78) from the `regs`, `bits` and `blocks` tables plus `WARNING`. -/
inductive AnnClass where
  | REG_SECONDS | REG_MINUTES | REG_HOURS | REG_DAY | REG_DATE | REG_MONTH | REG_YEAR
  | REG_ALARM1_SECONDS | REG_ALARM1_MINUTES | REG_ALARM1_HOURS | REG_ALARM1_DAY_DATE
  | REG_ALARM2_MINUTES | REG_ALARM2_HOURS | REG_ALARM2_DAY_DATE | REG_CONTROL
  | REG_CONTROL_STATUS | REG_AGING_OFFSET | REG_TEMPERATURE_MSB | REG_TEMPERATURE_LSB
  | BIT_SECONDS | BIT_RESERVED | BIT_MINUTES | BIT_12_24_HOURS | BIT_AM_PM
  | BIT_HOURS | BIT_DAY | BIT_DATE | BIT_CENTURY | BIT_MONTH | BIT_YEAR | BIT_DAY_DATE
  | BIT__EOSC | BIT_BBSQWE | BIT_CONV | BIT_RATE | BIT_INTCN | BIT_A2IE | BIT_A1IE
  | BIT_RS1 | BIT_OSF | BIT_EN32KHZ | BIT_BSY | BIT_A2F | BIT_A1F
  | BIT_A1M1 | BIT_A1M2 | BIT_A1M3 | BIT_A1M4 | BIT_A2M2 | BIT_A2M3 | BIT_A2M4
  | BIT_TMSB | BIT_TLSB | BIT_AOFS
  | BLOCK_DATE_TIME | BLOCK_ALARM1 | BLOCK_ALARM2 | BLOCK_TEMPERATURE
  | WARNING
  deriving Repr, DecidableEq

/-- One entry of a `BITS` packet as delivered by the I²C decoder:
`[bit value, start sample, end sample]`. -/
structure PyBit where
  b : Int
  ss : Int
  es : Int
  deriving Repr, DecidableEq

/-- One emitted annotation: `self.put(ss, es, self.out_ann, [cls, texts])`. -/
structure Event where
  ss : Int
  es : Int
  ann : AnnClass
  texts : List String
  deriving Repr, DecidableEq

/-- The decoder session state: the fields of `Decoder.reset` (pd.py
lines 115-145), the register pointer set in `start`, the per-packet
`self.ss`/`self.es`, the immutable options, and the accumulated output.
Fields that Python initialises to the integer `-1` but only ever renders
through `%s` after being overwritten with a string (`ampm`, `a1ampm`,
`a2ampm`) are kept as strings initialised to `"-1"` (Python's
`str(-1)`), which is observationally identical. -/
structure St where
  state : String
  bits : List PyBit
  seconds : Int
  minutes : Int
  ampm : String
  hours : Int
  days : Int
  date : Int
  months : Int
  a1m1 : Int
  al1seconds : Int
  a1m2 : Int
  al1minutes : Int
  a1m3 : Int
  a1ampm : String
  al1hours : Int
  a2m2 : Int
  al2minutes : Int
  a2m3 : Int
  a2ampm : String
  al2hours : Int
  tempMSB : Int
  startreg : Int
  inblock : Int
  blockmode : String
  reg : Int
  ss : Int
  es : Int
  out : List Event
  optSubtype : String
  optRegptr : Int
  optFdw : String
  deriving DecidableEq

/-- The state after `__init__`/`reset` and `start` with the given
options (`subtype`, `regptr`, `fdw`); `self.ss`/`self.es` are unset in
Python until the first packet and are seeded with 0 here. -/
def initState (subtype : String) (regptr : Int) (fdw : String) : St where
  state := "IDLE"
  bits := []
  seconds := -1
  minutes := -1
  ampm := "-1"
  hours := -1
  days := -1
  date := -1
  months := -1
  a1m1 := -1
  al1seconds := -1
  a1m2 := -1
  al1minutes := -1
  a1m3 := -1
  a1ampm := "-1"
  al1hours := -1
  a2m2 := -1
  al2minutes := -1
  a2m3 := -1
  a2ampm := "-1"
  al2hours := -1
  tempMSB := -1
  startreg := -1
  inblock := -1
  blockmode := ""
  reg := regptr
  ss := 0
  es := 0
  out := []
  optSubtype := subtype
  optRegptr := regptr
  optFdw := fdw

/-- Append one annotation (`self.put`). -/
def put (s : St) (pss pes : Int) (a : AnnClass) (ts : List String) : St :=
  { s with out := s.out ++ [⟨pss, pes, a, ts⟩] }

def defaultPyBit : PyBit := ⟨0, 0, 0⟩

/-- `putd(bit1, bit2, data)`: annotate from the start sample of
`self.bits[bit1]` to the end sample of `self.bits[bit2]`.  The host
guarantees 8 entries per `BITS` packet; the default entry stands for
the `IndexError` Python would raise on fewer. -/
def putd (s : St) (bit1 bit2 : Nat) (a : AnnClass) (ts : List String) : St :=
  put s (s.bits.getD bit1 defaultPyBit).ss (s.bits.getD bit2 defaultPyBit).es a ts

/-- `putr(bit)`: a reserved-bit annotation on a single bit span. -/
def putr (s : St) (bit : Nat) : St :=
  put s (s.bits.getD bit defaultPyBit).ss (s.bits.getD bit defaultPyBit).es
    AnnClass.BIT_RESERVED ["Reserved bit", "Reserved", "Rsvd", "R"]

/-- `handle_reg_0x00` (Seconds). -/
def handle_reg_0x00 (b : Nat) (rw : String) (s : St) : St :=
  let s := putd s 7 0 .REG_SECONDS ["Seconds", "Sec", "S"]
  let v : Int := bcd2int (b &&& 0x7f)
  let s := { s with seconds := v }
  let s := putr s 7
  let s := putd s 6 0 .BIT_SECONDS
    ["Second: " ++ toString v, "Sec: " ++ toString v, "S: " ++ toString v, "S"]
  { s with startreg := s.ss, inblock := 0, blockmode := rw }

/-- `handle_reg_0x01` (Minutes). -/
def handle_reg_0x01 (b : Nat) (rw : String) (s : St) : St :=
  let s := putd s 7 0 .REG_MINUTES ["Minutes", "Min", "M"]
  let s := putr s 7
  let v : Int := bcd2int (b &&& 0x7f)
  let s := { s with minutes := v }
  let s := putd s 6 0 .BIT_MINUTES
    ["Minute: " ++ toString v, "Min: " ++ toString v, "M: " ++ toString v, "M"]
  { s with inblock := if s.inblock = 0 ∧ s.blockmode = rw then 1 else -1 }

/-- `handle_reg_0x02` (Hours, 12h/24h). -/
def handle_reg_0x02 (b : Nat) (rw : String) (s : St) : St :=
  let s := putd s 7 0 .REG_HOURS ["Hours", "H"]
  let s := putr s 7
  let s :=
    if b &&& (1 <<< 6) ≠ 0 then
      let s := putd s 6 6 .BIT_12_24_HOURS ["12-hour mode", "12h mode", "12h"]
      let ap := if b &&& (1 <<< 5) ≠ 0 then "PM" else "AM"
      let s := { s with ampm := ap }
      let s := putd s 5 5 .BIT_AM_PM [ap, ap.take 1]
      let v : Int := bcd2int (b &&& 0x1f)
      let s := { s with hours := v }
      putd s 4 0 .BIT_HOURS ["Hour: " ++ toString v, "H: " ++ toString v, "H"]
    else
      let s := putd s 6 6 .BIT_12_24_HOURS ["24-hour mode", "24h mode", "24h"]
      let s := { s with ampm := "" }
      let v : Int := bcd2int (b &&& 0x3f)
      let s := { s with hours := v }
      putd s 5 0 .BIT_HOURS ["Hour: " ++ toString v, "H: " ++ toString v, "H"]
  { s with inblock := if s.inblock = 1 ∧ s.blockmode = rw then 2 else -1 }

/-- `handle_reg_0x03` (Day of week). -/
def handle_reg_0x03 (b : Nat) (rw : String) (s : St) : St :=
  let s := putd s 7 0 .REG_DAY ["Day of week", "Day", "D"]
  let s := putr s 7
  let s := putr s 6
  let s := putr s 5
  let s := putr s 4
  let s := putr s 3
  let v : Int := bcd2int (b &&& 0x07)
  let s := { s with days := v }
  let ws := pyIndex (days_of_week s.optFdw) (v - 1)
  let s := putd s 2 0 .BIT_DAY ["Weekday: " ++ ws, "WD: " ++ ws, "WD", "W"]
  { s with inblock := if s.inblock = 2 ∧ s.blockmode = rw then 3 else -1 }

/-- `handle_reg_0x04` (Date). -/
def handle_reg_0x04 (b : Nat) (rw : String) (s : St) : St :=
  let s := putd s 7 0 .REG_DATE ["Date", "D"]
  let s := putr s 7
  let s := putr s 6
  let v : Int := bcd2int (b &&& 0x3f)
  let s := { s with date := v }
  let s := putd s 5 0 .BIT_DATE ["Date: " ++ toString v, "D: " ++ toString v, "D"]
  { s with inblock := if s.inblock = 3 ∧ s.blockmode = rw then 4 else -1 }

/-- `handle_reg_0x05` (Month, with century bit). -/
def handle_reg_0x05 (b : Nat) (rw : String) (s : St) : St :=
  let s := putd s 7 0 .REG_MONTH ["Month", "Mon", "M"]
  let century : Int := if b &&& (1 <<< 7) ≠ 0 then 1 else 0
  let s := putd s 7 7 .BIT_CENTURY
    ["Century overflow: " ++ toString century, "Cent OVF: " ++ toString century,
     "CO: " ++ toString century, "CO"]
  let s := putr s 6
  let s := putr s 5
  let v : Int := bcd2int (b &&& 0x1f)
  let s := { s with months := v }
  let s := putd s 4 0 .BIT_MONTH
    ["Month: " ++ toString v, "Mon: " ++ toString v, "M: " ++ toString v, "M"]
  { s with inblock := if s.inblock = 4 ∧ s.blockmode = rw then 5 else -1 }

/-- `handle_reg_0x06` (Year; completes the Date/Time block). -/
def handle_reg_0x06 (b : Nat) (rw : String) (s : St) : St :=
  let s := putd s 7 0 .REG_YEAR ["Year", "Y"]
  let y : Int := bcd2int (b &&& 0xff)
  let year : Int := y + 2000
  let s := putd s 7 0 .BIT_YEAR ["Year: " ++ toString year, "Y: " ++ toString y, "Y"]
  let s :=
    if s.inblock = 5 ∧ s.blockmode = rw then
      let d := "Date / time: " ++ pyIndex (days_of_week s.optFdw) (s.days - 1) ++ ", " ++
        pad2 s.date ++ "." ++ pad2 s.months ++ "." ++ pad4 year ++ " " ++
        pad2 s.hours ++ ":" ++ pad2 s.minutes ++ ":" ++ pad2 s.seconds ++ s.ampm
      put s s.startreg s.es .BLOCK_DATE_TIME [rw ++ " " ++ d]
    else s
  { s with inblock := -1 }

/-- `handle_reg_0x07` (Alarm1 Seconds; starts the Alarm1 block). -/
def handle_reg_0x07 (b : Nat) (rw : String) (s : St) : St :=
  let s := putd s 7 0 .REG_ALARM1_SECONDS ["Alarm1 Seconds", "Al1 Sec", "A1S"]
  let m1 : Int := if b &&& (1 <<< 7) ≠ 0 then 1 else 0
  let s := { s with a1m1 := m1 }
  let s := putd s 7 7 .BIT_A1M1 ["A1M1: " ++ toString m1, "A1M1"]
  let v : Int := bcd2int (b &&& 0x7f)
  let s := { s with al1seconds := v }
  let s := putd s 6 0 .BIT_SECONDS
    ["Second: " ++ toString v, "Sec: " ++ toString v, "S: " ++ toString v, "S"]
  { s with startreg := s.ss, inblock := 7, blockmode := rw }

/-- `handle_reg_0x08` (Alarm1 Minutes). -/
def handle_reg_0x08 (b : Nat) (rw : String) (s : St) : St :=
  let s := putd s 7 0 .REG_ALARM1_MINUTES ["Alarm1 Minutes", "Al1 Min", "A1M"]
  let m2 : Int := if b &&& (1 <<< 7) ≠ 0 then 1 else 0
  let s := { s with a1m2 := m2 }
  let s := putd s 7 7 .BIT_A1M2 ["A1M2: " ++ toString m2, "A1M2"]
  let v : Int := bcd2int (b &&& 0x7f)
  let s := { s with al1minutes := v }
  let s := putd s 6 0 .BIT_MINUTES
    ["Minute: " ++ toString v, "Min: " ++ toString v, "M: " ++ toString v, "M"]
  { s with inblock := if s.inblock = 7 ∧ s.blockmode = rw then 8 else -1 }

/-- `handle_reg_0x09` (Alarm1 Hours). -/
def handle_reg_0x09 (b : Nat) (rw : String) (s : St) : St :=
  let s := putd s 7 0 .REG_ALARM1_HOURS ["Alarm1 Hours", "Al1 Hr", "A1H"]
  let m3 : Int := if b &&& (1 <<< 7) ≠ 0 then 1 else 0
  let s := { s with a1m3 := m3 }
  let s := putd s 7 7 .BIT_A1M3 ["A1M3: " ++ toString m3, "A1M3"]
  let s :=
    if b &&& (1 <<< 6) ≠ 0 then
      let s := putd s 6 6 .BIT_12_24_HOURS ["12-hour mode", "12h mode", "12h"]
      let ap := if b &&& (1 <<< 5) ≠ 0 then "PM" else "AM"
      let s := { s with a1ampm := ap }
      let s := putd s 5 5 .BIT_AM_PM [ap, ap.take 1]
      let v : Int := bcd2int (b &&& 0x1f)
      let s := { s with al1hours := v }
      putd s 4 0 .BIT_HOURS ["Hour: " ++ toString v, "H: " ++ toString v, "H"]
    else
      let s := putd s 6 6 .BIT_12_24_HOURS ["24-hour mode", "24h mode", "24h"]
      let s := { s with a1ampm := "" }
      let v : Int := bcd2int (b &&& 0x3f)
      let s := { s with al1hours := v }
      putd s 5 0 .BIT_HOURS ["Hour: " ++ toString v, "H: " ++ toString v, "H"]
  { s with inblock := if s.inblock = 8 ∧ s.blockmode = rw then 9 else -1 }

/-- The Alarm1 mode ladder of `handle_reg_0x0a` (pd.py lines 283-299),
factored as a function of the four mask bits, the cached Alarm1 fields
and the day/date data of the current byte; it returns the description
string appearing after the `Alarm1: ` prefix of the block annotation. -/
def alarm1_desc (m1 m2 m3 m4 : Int) (sec min hr : Int) (ap : String)
    (dydt : Int) (ws : String) (da : Int) : String :=
  if (m1, m2, m3, m4) = ((1 : Int), (1 : Int), (1 : Int), (1 : Int)) then
    "every second"
  else if (m1, m2, m3, m4) = ((0 : Int), (1 : Int), (1 : Int), (1 : Int)) then
    "every minute, second=" ++ pad2 sec
  else if (m1, m2, m3, m4) = ((0 : Int), (0 : Int), (1 : Int), (1 : Int)) then
    "every hour, mm:ss=" ++ pad2 min ++ ":" ++ pad2 sec
  else if (m1, m2, m3, m4) = ((0 : Int), (0 : Int), (0 : Int), (1 : Int)) then
    "daily, hh:mm:ss=" ++ pad2 hr ++ ":" ++ pad2 min ++ ":" ++ pad2 sec ++ ap
  else if (m1, m2, m3, m4) = ((0 : Int), (0 : Int), (0 : Int), (0 : Int)) then
    let daydate := if dydt = 1 then ws else toString da ++ ". of every month"
    daydate ++ ", " ++ pad2 hr ++ ":" ++ pad2 min ++ ":" ++ pad2 sec
  else "invalid setting"

/-- `handle_reg_0x0a` (Alarm1 Day/Date; completes the Alarm1 block). -/
def handle_reg_0x0a (b : Nat) (rw : String) (s : St) : St :=
  let s := putd s 7 0 .REG_ALARM1_DAY_DATE
    ["Alarm1 Date or Day of week", "Al1 Day / DOW", "A1DD"]
  let a1m4 : Int := if b &&& (1 <<< 7) ≠ 0 then 1 else 0
  let s := putd s 7 7 .BIT_A1M4 ["A1M4: " ++ toString a1m4, "A1M4"]
  let a1dydt : Int := if b &&& (1 <<< 6) ≠ 0 then 1 else 0
  let s := putd s 6 6 .BIT_DAY_DATE ["DYDT: " ++ toString a1dydt, "DYDT"]
  let w : Int := bcd2int (b &&& 0x07)
  let ws := pyIndex (days_of_week s.optFdw) (w - 1)
  let da : Int := bcd2int (b &&& 0x3f)
  let s :=
    if a1dydt = 1 then
      putd s 2 0 .BIT_DAY ["Weekday: " ++ ws, "WD: " ++ toString w, "WD", "W"]
    else
      putd s 5 0 .BIT_DATE ["Date / Day: " ++ toString da, "D: " ++ toString da, "D"]
  let s :=
    if s.inblock = 9 ∧ s.blockmode = rw then
      let d := "Alarm1: " ++
        alarm1_desc s.a1m1 s.a1m2 s.a1m3 a1m4 s.al1seconds s.al1minutes s.al1hours
          s.a1ampm a1dydt ws da
      put s s.startreg s.es .BLOCK_ALARM1 [rw ++ " " ++ d]
    else s
  { s with inblock := -1 }

/-- `handle_reg_0x0b` (Alarm2 Minutes; starts the Alarm2 block). -/
def handle_reg_0x0b (b : Nat) (rw : String) (s : St) : St :=
  let s := putd s 7 0 .REG_ALARM2_MINUTES ["Alarm2 Minutes", "Al2 Min", "A2M"]
  let m2 : Int := if b &&& (1 <<< 7) ≠ 0 then 1 else 0
  let s := { s with a2m2 := m2 }
  let s := putd s 7 7 .BIT_A2M2 ["A2M2: " ++ toString m2, "A2M2"]
  let v : Int := bcd2int (b &&& 0x7f)
  let s := { s with al2minutes := v }
  let s := putd s 6 0 .BIT_MINUTES
    ["Minute: " ++ toString v, "Min: " ++ toString v, "M: " ++ toString v, "M"]
  { s with startreg := s.ss, inblock := 0x0b, blockmode := rw }

/-- `handle_reg_0x0c` (Alarm2 Hours). -/
def handle_reg_0x0c (b : Nat) (rw : String) (s : St) : St :=
  let s := putd s 7 0 .REG_ALARM2_HOURS ["Alarm2 Hours", "Al2 Hr", "A2H"]
  let m3 : Int := if b &&& (1 <<< 7) ≠ 0 then 1 else 0
  let s := { s with a2m3 := m3 }
  let s := putd s 7 7 .BIT_A2M3 ["A2M3: " ++ toString m3, "A2M3"]
  let s :=
    if b &&& (1 <<< 6) ≠ 0 then
      let s := putd s 6 6 .BIT_12_24_HOURS ["12-hour mode", "12h mode", "12h"]
      let ap := if b &&& (1 <<< 5) ≠ 0 then "PM" else "AM"
      let s := { s with a2ampm := ap }
      let s := putd s 5 5 .BIT_AM_PM [ap, ap.take 1]
      let v : Int := bcd2int (b &&& 0x1f)
      let s := { s with al2hours := v }
      putd s 4 0 .BIT_HOURS ["Hour: " ++ toString v, "H: " ++ toString v, "H"]
    else
      let s := putd s 6 6 .BIT_12_24_HOURS ["24-hour mode", "24h mode", "24h"]
      let s := { s with a2ampm := "" }
      let v : Int := bcd2int (b &&& 0x3f)
      let s := { s with al2hours := v }
      putd s 5 0 .BIT_HOURS ["Hour: " ++ toString v, "H: " ++ toString v, "H"]
  { s with inblock := if s.inblock = 0x0b ∧ s.blockmode = rw then 0x0c else -1 }

/-- The Alarm2 mode ladder of `handle_reg_0x0d` (pd.py lines 347-361),
factored like `alarm1_desc`. -/
def alarm2_desc (m2 m3 m4 : Int) (min hr : Int) (ap : String)
    (dydt : Int) (ws : String) (da : Int) : String :=
  if (m2, m3, m4) = ((1 : Int), (1 : Int), (1 : Int)) then
    "every minute"
  else if (m2, m3, m4) = ((0 : Int), (1 : Int), (1 : Int)) then
    "every hour, minute=" ++ pad2 min
  else if (m2, m3, m4) = ((0 : Int), (0 : Int), (1 : Int)) then
    "every day, hh:mm=" ++ pad2 hr ++ ":" ++ pad2 min ++ ap
  else if (m2, m3, m4) = ((0 : Int), (0 : Int), (0 : Int)) then
    let daydate := if dydt = 1 then ws else toString da ++ ". of month"
    "every " ++ daydate ++ ", hh:mm=" ++ pad2 hr ++ ":" ++ pad2 min
  else "invalid setting"

/-- `handle_reg_0x0d` (Alarm2 Day/Date; completes the Alarm2 block). -/
def handle_reg_0x0d (b : Nat) (rw : String) (s : St) : St :=
  let s := putd s 7 0 .REG_ALARM2_DAY_DATE
    ["Alarm2 Date or Day of week", "Al2 Day / DOW", "A2DD"]
  let a2m4 : Int := if b &&& (1 <<< 7) ≠ 0 then 1 else 0
  let s := putd s 7 7 .BIT_A2M4 ["A2M4: " ++ toString a2m4, "A2M4"]
  let a2dydt : Int := if b &&& (1 <<< 6) ≠ 0 then 1 else 0
  let s := putd s 6 6 .BIT_DAY_DATE ["DYDT: " ++ toString a2dydt, "DYDT"]
  let w : Int := bcd2int (b &&& 0x07)
  let ws := pyIndex (days_of_week s.optFdw) (w - 1)
  let da : Int := bcd2int (b &&& 0x3f)
  let s :=
    if a2dydt = 1 then
      putd s 2 0 .BIT_DAY ["Weekday: " ++ ws, "WD: " ++ toString w, "WD", "W"]
    else
      putd s 5 0 .BIT_DATE ["Date / Date: " ++ toString da, "D: " ++ toString da, "D"]
  let s :=
    if s.inblock = 0x0c ∧ s.blockmode = rw then
      let d := "Alarm2: " ++
        alarm2_desc s.a2m2 s.a2m3 a2m4 s.al2minutes s.al2hours s.a2ampm a2dydt ws da
      put s s.startreg s.es .BLOCK_ALARM2 [rw ++ " " ++ d]
    else s
  { s with inblock := -1 }

/-- `handle_reg_0x0e` (Control register). -/
def handle_reg_0x0e (b : Nat) (rw : String) (s : St) : St :=
  let s := putd s 7 0 .REG_CONTROL ["Control", "Ctrl", "C"]
  let eosc : Int := if b &&& (1 <<< 7) ≠ 0 then 1 else 0
  let bbsqw : Int := if b &&& (1 <<< 6) ≠ 0 then 1 else 0
  let bbsqw2 := if b &&& (1 <<< 6) ≠ 0 then "en" else "dis"
  let conv : Int := if b &&& (1 <<< 5) ≠ 0 then 1 else 0
  let intcn2 := if b &&& (1 <<< 5) ≠ 0 then "alarm interrupt" else "square wave"
  let intcn : Int := if b &&& (1 <<< 2) ≠ 0 then 1 else 0
  let a2ie : Int := if b &&& (1 <<< 1) ≠ 0 then 1 else 0
  let a2ie2 := if b &&& (1 <<< 1) ≠ 0 then "en" else "dis"
  let a1ie : Int := if b &&& 1 ≠ 0 then 1 else 0
  let a1ie2 := if b &&& 1 ≠ 0 then "en" else "dis"
  let s := putd s 7 7 .BIT__EOSC
    ["Enable oscillator: " ++ toString eosc, "enab osc: " ++ toString eosc,
     "EO: " ++ toString eosc, "EO"]
  let s := putd s 6 6 .BIT_BBSQWE
    ["Battery backed square wave " ++ bbsqw2 ++ "abled", "BBSQWE: " ++ bbsqw2 ++ "abled",
     "SQWE: " ++ toString bbsqw, "S: " ++ toString bbsqw, "S"]
  let s := putd s 5 5 .BIT_CONV
    ["Forced temperature conversion: " ++ toString conv, "frc tconv: " ++ toString conv,
     "FC: " ++ toString conv, "FC"]
  let s :=
    if s.optSubtype = "SN" then
      let r := rates ((b >>> 3) &&& 0x03)
      putd s 4 3 .BIT_RATE
        ["Square wave output rate: " ++ r, "Square wave rate: " ++ r,
         "SQW rate: " ++ r, "Rate: " ++ r, "RA: " ++ r, "RA", "R"]
    else
      let s := putr s 4
      putr s 3
  let s := putd s 2 2 .BIT_INTCN
    ["Int/SQW pin: " ++ intcn2, "Int on pin: " ++ toString intcn,
     "IP: " ++ toString intcn, "IP"]
  let s := putd s 1 1 .BIT_A2IE
    ["Alarm2 interrupt " ++ a2ie2 ++ "abled", "Al2 INT " ++ a2ie2 ++ "abled",
     "Al2 INT: " ++ toString a2ie, "A2I: " ++ toString a2ie, "A2I"]
  putd s 0 0 .BIT_A1IE
    ["Alarm1 interrupt " ++ a1ie2 ++ "abled", "Al1 INT " ++ a1ie2 ++ "abled",
     "Al1 INT: " ++ toString a1ie, "A1I: " ++ toString a1ie, "A1I"]

/-- `handle_reg_0x0f` (Control/Status register). -/
def handle_reg_0x0f (b : Nat) (rw : String) (s : St) : St :=
  let s := putd s 7 0 .REG_CONTROL_STATUS ["Control / Status", "Ctrl/Stat", "C/S"]
  let s := putr s 6
  let s := putr s 5
  let s := putr s 4
  let osf : Int := if b &&& (1 <<< 7) ≠ 0 then 1 else 0
  let en32 : Int := if b &&& (1 <<< 3) ≠ 0 then 1 else 0
  let bsy : Int := if b &&& (1 <<< 2) ≠ 0 then 1 else 0
  let a2f : Int := if b &&& (1 <<< 1) ≠ 0 then 1 else 0
  let a1f : Int := if b &&& 1 ≠ 0 then 1 else 0
  let s := putd s 7 7 .BIT_OSF
    ["Oscillator stop flag: " ++ toString osf, "Osc stop: " ++ toString osf,
     "OS: " ++ toString osf, "OS"]
  let s := putd s 3 3 .BIT_EN32KHZ
    ["Enable 32kHz output: " ++ toString en32, "En 32k out: " ++ toString en32,
     "32k: " ++ toString en32, "32k"]
  let s := putd s 2 2 .BIT_BSY
    ["Busy TXCO: " ++ toString bsy, "TXCO: " ++ toString bsy, "TX: " ++ toString bsy, "TX"]
  let s := putd s 1 1 .BIT_A2F
    ["Alarm2 flag: " ++ toString a2f, "Al2 flg: " ++ toString a2f,
     "A2F: " ++ toString a2f, "A2"]
  putd s 0 0 .BIT_A1F
    ["Alarm1 flag: " ++ toString a1f, "Al1 flg: " ++ toString a1f,
     "A1F: " ++ toString a1f, "A1"]

/-- `handle_reg_0x10` (Aging Offset, signed two's complement). -/
def handle_reg_0x10 (b : Nat) (rw : String) (s : St) : St :=
  let s := putd s 7 0 .REG_AGING_OFFSET ["Aging offset", "Aging", "A"]
  let ao : Int := if b < 128 then (b : Int) else (b : Int) - 256
  putd s 7 0 .BIT_AOFS
    ["Offset: " ++ toString ao, "Ofs: " ++ toString ao, "O: " ++ toString ao, "O"]

/-- `handle_reg_0x11` (Temperature MSB; starts the Temperature block).
Note: it records the unsigned byte in `tempMSB` and does not touch
`blockmode`. -/
def handle_reg_0x11 (b : Nat) (rw : String) (s : St) : St :=
  let s := putd s 7 0 .REG_TEMPERATURE_MSB ["Temperature MSB", "tm", "t"]
  let s := { s with tempMSB := (b : Int) }
  let tm : Int := if b < 128 then (b : Int) else (b : Int) - 256
  let s := putd s 7 0 .BIT_TMSB
    ["tempMSB: " ++ toString tm, "tm: " ++ toString tm, "tm: " ++ toString tm, "t"]
  { s with startreg := s.ss, inblock := 0x11 }

/-- `handle_reg_0x12` (Temperature LSB; completes the Temperature
block).  Python's `x << 2` on an int is multiplication by 4.  The
emission guard checks only `self.inblock == 0x11`, not `blockmode`. -/
def handle_reg_0x12 (b : Nat) (rw : String) (s : St) : St :=
  let s := putd s 7 0 .REG_TEMPERATURE_LSB ["Temperature LSB", "tl", "t"]
  let s := putr s 0
  let s := putr s 1
  let s := putr s 2
  let s := putr s 3
  let s := putr s 4
  let s := putr s 5
  let tl : Int := b >>> 6
  let s := putd s 7 6 .BIT_TLSB
    ["tempLSB: " ++ toString tl, "tl: " ++ toString tl, "tl: " ++ toString tl, "t"]
  let s :=
    if s.inblock = 0x11 then
      let theta0 : Int := s.tempMSB * 4 + tl
      let theta : Int := if theta0 ≥ 512 then theta0 - 1024 else theta0
      let d := "Temperature: " ++ pyFloatQuarters theta
      put s s.startreg s.es .BLOCK_TEMPERATURE [rw ++ " block data: " ++ d]
    else s
  { s with inblock := -1 }

/-- The reflective per-register dispatch of `handle_reg` (pd.py line
457: `fn = getattr(self, 'handle_reg_0x%02x' % self.reg)`), spelled as
an address chain over the in-range registers 0x00-0x12. -/
def dispatch_handler (b : Nat) (rw : String) (s : St) : St :=
  if s.reg = 0x00 then handle_reg_0x00 b rw s
  else if s.reg = 0x01 then handle_reg_0x01 b rw s
  else if s.reg = 0x02 then handle_reg_0x02 b rw s
  else if s.reg = 0x03 then handle_reg_0x03 b rw s
  else if s.reg = 0x04 then handle_reg_0x04 b rw s
  else if s.reg = 0x05 then handle_reg_0x05 b rw s
  else if s.reg = 0x06 then handle_reg_0x06 b rw s
  else if s.reg = 0x07 then handle_reg_0x07 b rw s
  else if s.reg = 0x08 then handle_reg_0x08 b rw s
  else if s.reg = 0x09 then handle_reg_0x09 b rw s
  else if s.reg = 0x0a then handle_reg_0x0a b rw s
  else if s.reg = 0x0b then handle_reg_0x0b b rw s
  else if s.reg = 0x0c then handle_reg_0x0c b rw s
  else if s.reg = 0x0d then handle_reg_0x0d b rw s
  else if s.reg = 0x0e then handle_reg_0x0e b rw s
  else if s.reg = 0x0f then handle_reg_0x0f b rw s
  else if s.reg = 0x10 then handle_reg_0x10 b rw s
  else if s.reg = 0x11 then handle_reg_0x11 b rw s
  else handle_reg_0x12 b rw s

/-- `handle_reg` (pd.py lines 450-463): out-of-range check, dispatch to
the per-register handler, then the unconditional auto-increment with
wrap at 0x12. -/
def handle_reg (b : Nat) (rw : String) (s : St) : St :=
  if ¬(0 ≤ s.reg ∧ s.reg < 0x13) then
    put s s.ss s.es .WARNING ["Ignoring out-of-range register 0x" ++ pyHex02X s.reg]
  else
    let s1 := dispatch_handler b rw s
    let r := s1.reg + 1
    { s1 with reg := if r > 0x12 then 0 else r }

/-- `is_correct_chip`: check the slave address, emitting a warning on a
mismatch; returns the updated state and the boolean result. -/
def is_correct_chip (addr : Nat) (s : St) : St × Bool :=
  if addr = DS3231_I2C_ADDRESS then (s, true)
  else
    (put s s.ss s.es .WARNING
      ["Ignoring non-DS3231 data (slave 0x" ++ pyHex02X (addr : Int) ++ ")"], false)

/-- The input primitives of `Decoder.decode` (the `cmd`/`databyte`
pairs delivered by the I²C decoder). -/
inductive Cmd where
  | BITS (bl : List PyBit)
  | START
  | STARTREPEAT
  | STOP
  | ADDRESSWRITE (b : Nat)
  | ADDRESSREAD (b : Nat)
  | DATAWRITE (b : Nat)
  | DATAREAD (b : Nat)
  deriving Repr, DecidableEq

/-- `Decoder.decode` (pd.py lines 472-524): buffer `BITS`, store the
packet span, then run the protocol state machine. -/
def decode (pss pes : Int) (c : Cmd) (s : St) : St :=
  match c with
  | .BITS bl => { s with bits := bl }
  | _ =>
    let s := { s with ss := pss, es := pes }
    if s.state = "IDLE" then
      match c with
      | .START => { s with state := "GET SLAVE ADDR" }
      | _ => s
    else if s.state = "GET SLAVE ADDR" then
      match c with
      | .ADDRESSWRITE b =>
        let p := is_correct_chip b s
        if p.2 then { p.1 with state := "GET REG ADDR" }
        else { p.1 with state := "IDLE" }
      | .ADDRESSREAD b =>
        let p := is_correct_chip b s
        if p.2 then { p.1 with state := "READ RTC REGS" }
        else { p.1 with state := "IDLE" }
      | _ => s
    else if s.state = "GET REG ADDR" then
      match c with
      | .DATAWRITE b => { s with reg := (b : Int), state := "WRITE RTC REGS" }
      | .STOP => { s with state := "IDLE" }
      | _ => s
    else if s.state = "WRITE RTC REGS" then
      match c with
      | .STARTREPEAT => { s with state := "GET SLAVE ADDR" }
      | .DATAWRITE b => handle_reg b ("Wrote") s
      | .STOP => { s with state := "IDLE" }
      | _ => s
    else if s.state = "READ RTC REGS" then
      match c with
      | .DATAREAD b => handle_reg b ("Read") s
      | .STOP => { s with state := "IDLE" }
      | _ => s
    else s

/-- One host packet: a span plus the primitive. -/
structure Packet where
  pss : Int
  pes : Int
  cmd : Cmd
  deriving Repr, DecidableEq

/-- Feed a list of packets through `decode` in order. -/
def runTrace (tr : List Packet) (s : St) : St :=
  tr.foldl (fun st p => decode p.pss p.pes p.cmd st) s

/-- Count the output events carrying a given annotation class. -/
def countAnn (a : AnnClass) (l : List Event) : Nat :=
  l.countP (fun e => decide (e.ann = a))

/-- Count the warning events. -/
def countWarn (l : List Event) : Nat := countAnn .WARNING l

/-- The texts of the output events carrying a given annotation class. -/
def annTexts (a : AnnClass) (l : List Event) : List (List String) :=
  (l.filter (fun e => decide (e.ann = a))).map Event.texts

/-- A well-formedness condition on one primitive for the amended C5
statement: address packets target the DS3231 and a register-pointer
byte written in the `GET REG ADDR` state stays within 0x00-0x12. -/
def okStep (s : St) (c : Cmd) : Bool :=
  match c with
  | .DATAWRITE b => if s.state = "GET REG ADDR" then decide (b ≤ 0x12) else true
  | .ADDRESSWRITE b => decide (b = DS3231_I2C_ADDRESS)
  | .ADDRESSREAD b => decide (b = DS3231_I2C_ADDRESS)
  | _ => true

/-- `okStep` holding along a whole trace, each step judged in the state
the decoder actually reaches there. -/
def okTrace (s : St) : List Packet → Bool
  | [] => true
  | p :: t => okStep s p.cmd && okTrace (decode p.pss p.pes p.cmd s) t

/-- The temperature combination formula as the spec words it (§4.6):
`theta = (unsigned MSB byte << 2) + (LSB byte >> 6)` (shift by 2 is
multiplication by 4, shift by 6 is division by 64), with 1024
subtracted iff the raw value is at least 512.  Stated from the spec to
compare against the code's `handle_reg_0x12`. -/
def theta_spec (msb lsb : Nat) : Int :=
  let t : Int := (msb : Int) * 4 + ((lsb : Int) / 64)
  if 512 ≤ t then t - 1024 else t

/-- A `BITS` packet payload with the 8 per-bit spans (most significant
bit first in time) that the I²C decoder delivers before a data byte. -/
def demoBits (base : Int) : List PyBit :=
  (List.range 8).map
    (fun i => ⟨0, base + 10 * ((7 : Int) - (i : Int)), base + 10 * ((7 : Int) - (i : Int)) + 10⟩)

/-- The end-to-end Date/Time write scenario of the spec (§8): set the
register pointer to 0x00, then write seconds 0x30, minutes 0x45, hours
0x12, day 0x03, date 0x15, month 0x06, year 0x23. -/
def c2trace : List Packet :=
  [⟨0, 1, .START⟩, ⟨2, 3, .BITS (demoBits 100)⟩, ⟨2, 3, .ADDRESSWRITE 0x68⟩,
   ⟨4, 5, .BITS (demoBits 200)⟩, ⟨4, 5, .DATAWRITE 0x00⟩,
   ⟨6, 7, .BITS (demoBits 300)⟩, ⟨6, 7, .DATAWRITE 0x30⟩,
   ⟨8, 9, .BITS (demoBits 400)⟩, ⟨8, 9, .DATAWRITE 0x45⟩,
   ⟨10, 11, .BITS (demoBits 500)⟩, ⟨10, 11, .DATAWRITE 0x12⟩,
   ⟨12, 13, .BITS (demoBits 600)⟩, ⟨12, 13, .DATAWRITE 0x03⟩,
   ⟨14, 15, .BITS (demoBits 700)⟩, ⟨14, 15, .DATAWRITE 0x15⟩,
   ⟨16, 17, .BITS (demoBits 800)⟩, ⟨16, 17, .DATAWRITE 0x06⟩,
   ⟨18, 19, .BITS (demoBits 900)⟩, ⟨18, 19, .DATAWRITE 0x23⟩,
   ⟨20, 21, .STOP⟩]

/-- The wrong-address scenario of the spec (§8): a transaction
addressed to 0x50 instead of 0x68. -/
def c6trace : List Packet :=
  [⟨0, 1, .START⟩, ⟨2, 3, .ADDRESSWRITE 0x50⟩, ⟨4, 5, .STOP⟩]

/-- A well-formed transaction that sets the register pointer to the
out-of-range value 0x13 and then writes one data byte. -/
def c5trace : List Packet :=
  [⟨0, 1, .START⟩, ⟨2, 3, .ADDRESSWRITE 0x68⟩, ⟨4, 5, .DATAWRITE 0x13⟩,
   ⟨6, 7, .DATAWRITE 0x00⟩]

/-- A temperature read of the MSB (register 0x11) in a read
transaction followed by a write transaction that resumes at register
0x12 — the direction changes between the two temperature registers. -/
def c1trace : List Packet :=
  [⟨0, 1, .START⟩, ⟨2, 3, .ADDRESSREAD 0x68⟩, ⟨4, 5, .BITS (demoBits 100)⟩,
   ⟨4, 5, .DATAREAD 0x19⟩, ⟨6, 7, .STOP⟩,
   ⟨8, 9, .START⟩, ⟨10, 11, .ADDRESSWRITE 0x68⟩, ⟨12, 13, .DATAWRITE 0x12⟩,
   ⟨14, 15, .BITS (demoBits 200)⟩, ⟨14, 15, .DATAWRITE 0xC0⟩, ⟨16, 17, .STOP⟩]

/-- A Date/Time block interrupted by STOP after the month register and
resumed by a second write transaction at the expected register 0x06. -/
def c9trace : List Packet :=
  [⟨0, 1, .START⟩, ⟨2, 3, .ADDRESSWRITE 0x68⟩, ⟨4, 5, .DATAWRITE 0x00⟩,
   ⟨6, 7, .BITS (demoBits 100)⟩, ⟨6, 7, .DATAWRITE 0x30⟩, ⟨8, 9, .DATAWRITE 0x45⟩,
   ⟨10, 11, .DATAWRITE 0x12⟩, ⟨12, 13, .DATAWRITE 0x03⟩, ⟨14, 15, .DATAWRITE 0x15⟩,
   ⟨16, 17, .DATAWRITE 0x06⟩, ⟨18, 19, .STOP⟩,
   ⟨20, 21, .START⟩, ⟨22, 23, .ADDRESSWRITE 0x68⟩, ⟨24, 25, .DATAWRITE 0x06⟩,
   ⟨26, 27, .DATAWRITE 0x23⟩, ⟨28, 29, .STOP⟩]

/-- A session state whose register pointer has been set to the
out-of-range value 0x13. -/
def c4state : St := { initState ("SN") 0 ("Monday") with reg := 0x13 }

/-- A session state awaiting the slave address (right after START). -/
def c6state : St := { initState ("SN") 0 ("Monday") with state := "GET SLAVE ADDR" }

/-! ## Helper lemmas about the output counters and the handlers -/

@[simp] theorem countAnn_append (a : AnnClass) (l1 l2 : List Event) :
    countAnn a (l1 ++ l2) = countAnn a l1 + countAnn a l2 := by
  simp [countAnn, List.countP_append]

@[simp] theorem countAnn_cons (a : AnnClass) (e : Event) (l : List Event) :
    countAnn a (e :: l) = (if e.ann = a then 1 else 0) + countAnn a l := by
  unfold countAnn
  rw [List.countP_cons]
  by_cases h : e.ann = a <;> simp [h] <;> omega

@[simp] theorem countAnn_nil (a : AnnClass) : countAnn a [] = 0 := rfl

@[simp] theorem countAnn_ite (a : AnnClass) (c : Prop) [Decidable c] (l1 l2 : List Event) :
    countAnn a (if c then l1 else l2) = if c then countAnn a l1 else countAnn a l2 := by
  split <;> rfl

@[simp] theorem St_out_ite (c : Prop) [Decidable c] (x y : St) :
    (if c then x else y).out = if c then x.out else y.out := by
  split <;> rfl

@[simp] theorem St_reg_ite (c : Prop) [Decidable c] (x y : St) :
    (if c then x else y).reg = if c then x.reg else y.reg := by
  split <;> rfl

@[simp] theorem St_state_ite (c : Prop) [Decidable c] (x y : St) :
    (if c then x else y).state = if c then x.state else y.state := by
  split <;> rfl

@[simp] theorem St_inblock_ite (c : Prop) [Decidable c] (x y : St) :
    (if c then x else y).inblock = if c then x.inblock else y.inblock := by
  split <;> rfl

@[simp] theorem St_blockmode_ite (c : Prop) [Decidable c] (x y : St) :
    (if c then x else y).blockmode = if c then x.blockmode else y.blockmode := by
  split <;> rfl

theorem h00_reg (b : Nat) (rw : String) (s : St) :
    (handle_reg_0x00 b rw s).reg = s.reg := rfl

theorem h01_reg (b : Nat) (rw : String) (s : St) :
    (handle_reg_0x01 b rw s).reg = s.reg := rfl

theorem h02_reg (b : Nat) (rw : String) (s : St) :
    (handle_reg_0x02 b rw s).reg = s.reg := by
  unfold handle_reg_0x02
  repeat' split
  all_goals simp [putd, putr, put]

theorem h03_reg (b : Nat) (rw : String) (s : St) :
    (handle_reg_0x03 b rw s).reg = s.reg := by
  simp [handle_reg_0x03, putd, putr, put]

theorem h04_reg (b : Nat) (rw : String) (s : St) :
    (handle_reg_0x04 b rw s).reg = s.reg := by
  simp [handle_reg_0x04, putd, putr, put]

theorem h05_reg (b : Nat) (rw : String) (s : St) :
    (handle_reg_0x05 b rw s).reg = s.reg := by
  simp [handle_reg_0x05, putd, putr, put]

theorem h06_reg (b : Nat) (rw : String) (s : St) :
    (handle_reg_0x06 b rw s).reg = s.reg := by
  unfold handle_reg_0x06
  repeat' split
  all_goals simp [putd, putr, put]

theorem h07_reg (b : Nat) (rw : String) (s : St) :
    (handle_reg_0x07 b rw s).reg = s.reg := rfl

theorem h08_reg (b : Nat) (rw : String) (s : St) :
    (handle_reg_0x08 b rw s).reg = s.reg := rfl

theorem h09_reg (b : Nat) (rw : String) (s : St) :
    (handle_reg_0x09 b rw s).reg = s.reg := by
  unfold handle_reg_0x09
  repeat' split
  all_goals simp [putd, putr, put]

theorem h0a_reg (b : Nat) (rw : String) (s : St) :
    (handle_reg_0x0a b rw s).reg = s.reg := by
  unfold handle_reg_0x0a
  repeat' split
  all_goals simp [putd, putr, put]

theorem h0b_reg (b : Nat) (rw : String) (s : St) :
    (handle_reg_0x0b b rw s).reg = s.reg := rfl

theorem h0c_reg (b : Nat) (rw : String) (s : St) :
    (handle_reg_0x0c b rw s).reg = s.reg := by
  unfold handle_reg_0x0c
  repeat' split
  all_goals simp [putd, putr, put]

theorem h0d_reg (b : Nat) (rw : String) (s : St) :
    (handle_reg_0x0d b rw s).reg = s.reg := by
  unfold handle_reg_0x0d
  repeat' split
  all_goals simp [putd, putr, put]

set_option maxHeartbeats 1000000 in
theorem h0e_reg (b : Nat) (rw : String) (s : St) :
    (handle_reg_0x0e b rw s).reg = s.reg := by
  unfold handle_reg_0x0e
  repeat' split
  all_goals simp [putd, putr, put]

theorem h0f_reg (b : Nat) (rw : String) (s : St) :
    (handle_reg_0x0f b rw s).reg = s.reg := by
  simp [handle_reg_0x0f, putd, putr, put]

theorem h10_reg (b : Nat) (rw : String) (s : St) :
    (handle_reg_0x10 b rw s).reg = s.reg := by
  simp [handle_reg_0x10, putd, putr, put]

theorem h11_reg (b : Nat) (rw : String) (s : St) :
    (handle_reg_0x11 b rw s).reg = s.reg := by
  simp [handle_reg_0x11, putd, putr, put]

theorem h12_reg (b : Nat) (rw : String) (s : St) :
    (handle_reg_0x12 b rw s).reg = s.reg := by
  unfold handle_reg_0x12
  repeat' split
  all_goals simp [putd, putr, put]

theorem h00_warn (b : Nat) (rw : String) (s : St) :
    countAnn AnnClass.WARNING (handle_reg_0x00 b rw s).out = countAnn AnnClass.WARNING s.out := by
  simp [handle_reg_0x00, putd, putr, put, countWarn]

theorem h01_warn (b : Nat) (rw : String) (s : St) :
    countAnn AnnClass.WARNING (handle_reg_0x01 b rw s).out = countAnn AnnClass.WARNING s.out := by
  simp [handle_reg_0x01, putd, putr, put, countWarn]

theorem h02_warn (b : Nat) (rw : String) (s : St) :
    countAnn AnnClass.WARNING (handle_reg_0x02 b rw s).out = countAnn AnnClass.WARNING s.out := by
  unfold handle_reg_0x02
  repeat' split
  all_goals simp [putd, putr, put, countWarn]

theorem h03_warn (b : Nat) (rw : String) (s : St) :
    countAnn AnnClass.WARNING (handle_reg_0x03 b rw s).out = countAnn AnnClass.WARNING s.out := by
  simp [handle_reg_0x03, putd, putr, put, countWarn]

theorem h04_warn (b : Nat) (rw : String) (s : St) :
    countAnn AnnClass.WARNING (handle_reg_0x04 b rw s).out = countAnn AnnClass.WARNING s.out := by
  simp [handle_reg_0x04, putd, putr, put, countWarn]

theorem h05_warn (b : Nat) (rw : String) (s : St) :
    countAnn AnnClass.WARNING (handle_reg_0x05 b rw s).out = countAnn AnnClass.WARNING s.out := by
  simp [handle_reg_0x05, putd, putr, put, countWarn]

theorem h06_warn (b : Nat) (rw : String) (s : St) :
    countAnn AnnClass.WARNING (handle_reg_0x06 b rw s).out = countAnn AnnClass.WARNING s.out := by
  unfold handle_reg_0x06
  repeat' split
  all_goals simp [putd, putr, put, countWarn]

theorem h07_warn (b : Nat) (rw : String) (s : St) :
    countAnn AnnClass.WARNING (handle_reg_0x07 b rw s).out = countAnn AnnClass.WARNING s.out := by
  simp [handle_reg_0x07, putd, putr, put, countWarn]

theorem h08_warn (b : Nat) (rw : String) (s : St) :
    countAnn AnnClass.WARNING (handle_reg_0x08 b rw s).out = countAnn AnnClass.WARNING s.out := by
  simp [handle_reg_0x08, putd, putr, put, countWarn]

theorem h09_warn (b : Nat) (rw : String) (s : St) :
    countAnn AnnClass.WARNING (handle_reg_0x09 b rw s).out = countAnn AnnClass.WARNING s.out := by
  unfold handle_reg_0x09
  repeat' split
  all_goals simp [putd, putr, put, countWarn]

theorem h0a_warn (b : Nat) (rw : String) (s : St) :
    countAnn AnnClass.WARNING (handle_reg_0x0a b rw s).out = countAnn AnnClass.WARNING s.out := by
  unfold handle_reg_0x0a
  repeat' split
  all_goals simp [putd, putr, put, countWarn]

theorem h0b_warn (b : Nat) (rw : String) (s : St) :
    countAnn AnnClass.WARNING (handle_reg_0x0b b rw s).out = countAnn AnnClass.WARNING s.out := by
  simp [handle_reg_0x0b, putd, putr, put, countWarn]

theorem h0c_warn (b : Nat) (rw : String) (s : St) :
    countAnn AnnClass.WARNING (handle_reg_0x0c b rw s).out = countAnn AnnClass.WARNING s.out := by
  unfold handle_reg_0x0c
  repeat' split
  all_goals simp [putd, putr, put, countWarn]

theorem h0d_warn (b : Nat) (rw : String) (s : St) :
    countAnn AnnClass.WARNING (handle_reg_0x0d b rw s).out = countAnn AnnClass.WARNING s.out := by
  unfold handle_reg_0x0d
  repeat' split
  all_goals simp [putd, putr, put, countWarn]

set_option maxHeartbeats 1000000 in
theorem h0e_warn (b : Nat) (rw : String) (s : St) :
    countAnn AnnClass.WARNING (handle_reg_0x0e b rw s).out = countAnn AnnClass.WARNING s.out := by
  unfold handle_reg_0x0e
  repeat' split
  all_goals simp [putd, putr, put, countWarn]

theorem h0f_warn (b : Nat) (rw : String) (s : St) :
    countAnn AnnClass.WARNING (handle_reg_0x0f b rw s).out = countAnn AnnClass.WARNING s.out := by
  simp [handle_reg_0x0f, putd, putr, put, countWarn]

theorem h10_warn (b : Nat) (rw : String) (s : St) :
    countAnn AnnClass.WARNING (handle_reg_0x10 b rw s).out = countAnn AnnClass.WARNING s.out := by
  simp [handle_reg_0x10, putd, putr, put, countWarn]

theorem h11_warn (b : Nat) (rw : String) (s : St) :
    countAnn AnnClass.WARNING (handle_reg_0x11 b rw s).out = countAnn AnnClass.WARNING s.out := by
  simp [handle_reg_0x11, putd, putr, put, countWarn]

theorem h12_warn (b : Nat) (rw : String) (s : St) :
    countAnn AnnClass.WARNING (handle_reg_0x12 b rw s).out = countAnn AnnClass.WARNING s.out := by
  unfold handle_reg_0x12
  repeat' split
  all_goals simp [putd, putr, put, countWarn]

theorem dispatch_reg (b : Nat) (rw : String) (s : St) :
    (dispatch_handler b rw s).reg = s.reg := by
  delta dispatch_handler
  simp only [St_reg_ite, h00_reg, h01_reg, h02_reg, h03_reg, h04_reg, h05_reg, h06_reg,
    h07_reg, h08_reg, h09_reg, h0a_reg, h0b_reg, h0c_reg, h0d_reg, h0e_reg, h0f_reg,
    h10_reg, h11_reg, h12_reg, ite_self]

theorem dispatch_warn (b : Nat) (rw : String) (s : St) :
    countAnn AnnClass.WARNING (dispatch_handler b rw s).out = countAnn AnnClass.WARNING s.out := by
  delta dispatch_handler
  simp only [St_out_ite, countAnn_ite, h00_warn, h01_warn, h02_warn, h03_warn, h04_warn,
    h05_warn, h06_warn, h07_warn, h08_warn, h09_warn, h0a_warn, h0b_warn, h0c_warn,
    h0d_warn, h0e_warn, h0f_warn, h10_warn, h11_warn, h12_warn, ite_self]

theorem handle_reg_oor (b : Nat) (rw : String) (s : St)
    (h : ¬(0 ≤ s.reg ∧ s.reg < 0x13)) :
    handle_reg b rw s =
      put s s.ss s.es .WARNING ["Ignoring out-of-range register 0x" ++ pyHex02X s.reg] := by
  unfold handle_reg
  rw [if_pos h]

theorem handle_reg_inrange_reg (b : Nat) (rw : String) (s : St)
    (h1 : 0 ≤ s.reg) (h2 : s.reg < 0x13) :
    (handle_reg b rw s).reg = (if s.reg = 0x12 then 0 else s.reg + 1) := by
  unfold handle_reg
  rw [if_neg (not_not_intro ⟨h1, h2⟩)]
  show (if (dispatch_handler b rw s).reg + 1 > 0x12 then 0 else (dispatch_handler b rw s).reg + 1)
      = (if s.reg = 0x12 then 0 else s.reg + 1)
  rw [dispatch_reg]
  split_ifs <;> omega

theorem handle_reg_inrange_warn (b : Nat) (rw : String) (s : St)
    (h1 : 0 ≤ s.reg) (h2 : s.reg < 0x13) :
    countAnn AnnClass.WARNING (handle_reg b rw s).out = countAnn AnnClass.WARNING s.out := by
  unfold handle_reg
  rw [if_neg (not_not_intro ⟨h1, h2⟩)]
  exact dispatch_warn b rw s


/-! ## Further helper lemmas -/

@[simp] theorem annTexts_append (a : AnnClass) (l1 l2 : List Event) :
    annTexts a (l1 ++ l2) = annTexts a l1 ++ annTexts a l2 := by
  simp [annTexts]

@[simp] theorem annTexts_cons (a : AnnClass) (e : Event) (l : List Event) :
    annTexts a (e :: l) = (if e.ann = a then [e.texts] else []) ++ annTexts a l := by
  unfold annTexts
  rw [List.filter_cons]
  by_cases h : e.ann = a <;> simp [h]

@[simp] theorem annTexts_nil (a : AnnClass) : annTexts a [] = [] := rfl

@[simp] theorem annTexts_ite (a : AnnClass) (c : Prop) [Decidable c] (l1 l2 : List Event) :
    annTexts a (if c then l1 else l2) = if c then annTexts a l1 else annTexts a l2 := by
  split <;> rfl

theorem blockdata_fold (a x : String) :
    a ++ " block data: " ++ ("Temperature: " ++ x)
      = a ++ " block data: Temperature: " ++ x := by
  rw [← String.append_assoc, String.append_assoc a]
  rfl

theorem runTrace_cons (p : Packet) (t : List Packet) (s : St) :
    runTrace (p :: t) s = runTrace t (decode p.pss p.pes p.cmd s) := rfl

theorem h01_inblock (b : Nat) (rw : String) (s : St) :
    (handle_reg_0x01 b rw s).inblock = if s.inblock = 0 ∧ s.blockmode = rw then 1 else -1 := rfl

theorem h02_inblock (b : Nat) (rw : String) (s : St) :
    (handle_reg_0x02 b rw s).inblock = if s.inblock = 1 ∧ s.blockmode = rw then 2 else -1 := by
  unfold handle_reg_0x02
  repeat' split
  all_goals (simp [putd, putr, put]; try tauto)

theorem h03_inblock (b : Nat) (rw : String) (s : St) :
    (handle_reg_0x03 b rw s).inblock = if s.inblock = 2 ∧ s.blockmode = rw then 3 else -1 := by
  unfold handle_reg_0x03
  repeat' split
  all_goals (simp [putd, putr, put]; try tauto)

theorem h04_inblock (b : Nat) (rw : String) (s : St) :
    (handle_reg_0x04 b rw s).inblock = if s.inblock = 3 ∧ s.blockmode = rw then 4 else -1 := by
  unfold handle_reg_0x04
  repeat' split
  all_goals (simp [putd, putr, put]; try tauto)

theorem h05_inblock (b : Nat) (rw : String) (s : St) :
    (handle_reg_0x05 b rw s).inblock = if s.inblock = 4 ∧ s.blockmode = rw then 5 else -1 := by
  unfold handle_reg_0x05
  repeat' split
  all_goals (simp [putd, putr, put]; try tauto)

theorem h08_inblock (b : Nat) (rw : String) (s : St) :
    (handle_reg_0x08 b rw s).inblock = if s.inblock = 7 ∧ s.blockmode = rw then 8 else -1 := by
  unfold handle_reg_0x08
  repeat' split
  all_goals (simp [putd, putr, put]; try tauto)

theorem h09_inblock (b : Nat) (rw : String) (s : St) :
    (handle_reg_0x09 b rw s).inblock = if s.inblock = 8 ∧ s.blockmode = rw then 9 else -1 := by
  unfold handle_reg_0x09
  repeat' split
  all_goals (simp [putd, putr, put]; try tauto)

theorem h0c_inblock (b : Nat) (rw : String) (s : St) :
    (handle_reg_0x0c b rw s).inblock
      = if s.inblock = 0x0b ∧ s.blockmode = rw then 0x0c else -1 := by
  unfold handle_reg_0x0c
  repeat' split
  all_goals (simp [putd, putr, put]; try tauto)

theorem h06_blockcount (b : Nat) (rw : String) (s : St) :
    countAnn .BLOCK_DATE_TIME (handle_reg_0x06 b rw s).out
      = countAnn .BLOCK_DATE_TIME s.out
        + (if s.inblock = 5 ∧ s.blockmode = rw then 1 else 0) := by
  unfold handle_reg_0x06
  repeat' split
  all_goals (simp [putd, putr, put]; try tauto)

theorem h0a_blockcount (b : Nat) (rw : String) (s : St) :
    countAnn .BLOCK_ALARM1 (handle_reg_0x0a b rw s).out
      = countAnn .BLOCK_ALARM1 s.out
        + (if s.inblock = 9 ∧ s.blockmode = rw then 1 else 0) := by
  unfold handle_reg_0x0a
  repeat' split
  all_goals (simp [putd, putr, put]; try tauto)

theorem h0d_blockcount (b : Nat) (rw : String) (s : St) :
    countAnn .BLOCK_ALARM2 (handle_reg_0x0d b rw s).out
      = countAnn .BLOCK_ALARM2 s.out
        + (if s.inblock = 0x0c ∧ s.blockmode = rw then 1 else 0) := by
  unfold handle_reg_0x0d
  repeat' split
  all_goals (simp [putd, putr, put]; try tauto)

theorem h12_blockcount (b : Nat) (rw : String) (s : St) :
    countAnn .BLOCK_TEMPERATURE (handle_reg_0x12 b rw s).out
      = countAnn .BLOCK_TEMPERATURE s.out + (if s.inblock = 0x11 then 1 else 0) := by
  unfold handle_reg_0x12
  repeat' split
  all_goals (simp [putd, putr, put]; try tauto)

theorem decode_ok_step (pss pes : Int) (c : Cmd) (s : St)
    (h1 : 0 ≤ s.reg) (h2 : s.reg ≤ 0x12) (hok : okStep s c = true) :
    countAnn .WARNING (decode pss pes c s).out = countAnn .WARNING s.out ∧
    0 ≤ (decode pss pes c s).reg ∧ (decode pss pes c s).reg ≤ 0x12 := by
  cases c with
  | BITS bl => exact ⟨rfl, h1, h2⟩
  | START =>
    delta decode
    dsimp only
    split_ifs <;> exact ⟨rfl, h1, h2⟩
  | STARTREPEAT =>
    delta decode
    dsimp only
    split_ifs <;> exact ⟨rfl, h1, h2⟩
  | STOP =>
    delta decode
    dsimp only
    split_ifs <;> exact ⟨rfl, h1, h2⟩
  | ADDRESSWRITE b =>
    simp only [okStep, decide_eq_true_eq] at hok
    delta decode
    dsimp only
    simp only [is_correct_chip, hok, DS3231_I2C_ADDRESS]
    split_ifs <;> exact ⟨rfl, h1, h2⟩
  | ADDRESSREAD b =>
    simp only [okStep, decide_eq_true_eq] at hok
    delta decode
    dsimp only
    simp only [is_correct_chip, hok, DS3231_I2C_ADDRESS]
    split_ifs <;> exact ⟨rfl, h1, h2⟩
  | DATAREAD b =>
    delta decode
    dsimp only
    split_ifs with hI hG hR hW hRd
    · exact ⟨rfl, h1, h2⟩
    · exact ⟨rfl, h1, h2⟩
    · exact ⟨rfl, h1, h2⟩
    · exact ⟨rfl, h1, h2⟩
    · have hlt : s.reg < 0x13 := by omega
      have e := handle_reg_inrange_reg b ("Read") { s with ss := pss, es := pes } h1 hlt
      refine ⟨handle_reg_inrange_warn b ("Read") _ h1 hlt, ?_, ?_⟩ <;>
        rw [e] <;> dsimp only <;> split_ifs <;> omega
    · exact ⟨rfl, h1, h2⟩
  | DATAWRITE b =>
    delta decode
    dsimp only
    split_ifs with hI hG hR hW hRd
    · exact ⟨rfl, h1, h2⟩
    · exact ⟨rfl, h1, h2⟩
    · simp only [okStep] at hok
      rw [if_pos hR] at hok
      simp only [decide_eq_true_eq] at hok
      refine ⟨rfl, ?_, ?_⟩ <;> simp <;> omega
    · have hlt : s.reg < 0x13 := by omega
      have e := handle_reg_inrange_reg b ("Wrote") { s with ss := pss, es := pes } h1 hlt
      refine ⟨handle_reg_inrange_warn b ("Wrote") _ h1 hlt, ?_, ?_⟩ <;>
        rw [e] <;> dsimp only <;> split_ifs <;> omega
    · exact ⟨rfl, h1, h2⟩
    · exact ⟨rfl, h1, h2⟩


/-! ## The claims -/

/-- Claim C1 (amended).  For the Date/Time, Alarm1 and Alarm2 blocks,
every subsequent register advances the block index exactly when the
stored index equals its expected predecessor AND the direction is
unchanged, and the block event at the last register is emitted exactly
when that chain reached the final predecessor with matching direction.
For the Temperature block, however, the event at register 0x12 is
emitted exactly when the previous handled register was 0x11
(`inblock = 0x11`): the direction is not consulted, so a direction
change between 0x11 and 0x12 does not suppress the Temperature event. -/
theorem spec_C1_block_break_conditions (b : Nat) (rw : String) (s : St) :
    ((handle_reg_0x01 b rw s).inblock = 1 ↔ s.inblock = 0 ∧ s.blockmode = rw) ∧
    ((handle_reg_0x02 b rw s).inblock = 2 ↔ s.inblock = 1 ∧ s.blockmode = rw) ∧
    ((handle_reg_0x03 b rw s).inblock = 3 ↔ s.inblock = 2 ∧ s.blockmode = rw) ∧
    ((handle_reg_0x04 b rw s).inblock = 4 ↔ s.inblock = 3 ∧ s.blockmode = rw) ∧
    ((handle_reg_0x05 b rw s).inblock = 5 ↔ s.inblock = 4 ∧ s.blockmode = rw) ∧
    (countAnn .BLOCK_DATE_TIME (handle_reg_0x06 b rw s).out
      = countAnn .BLOCK_DATE_TIME s.out
        + (if s.inblock = 5 ∧ s.blockmode = rw then 1 else 0)) ∧
    ((handle_reg_0x08 b rw s).inblock = 8 ↔ s.inblock = 7 ∧ s.blockmode = rw) ∧
    ((handle_reg_0x09 b rw s).inblock = 9 ↔ s.inblock = 8 ∧ s.blockmode = rw) ∧
    (countAnn .BLOCK_ALARM1 (handle_reg_0x0a b rw s).out
      = countAnn .BLOCK_ALARM1 s.out
        + (if s.inblock = 9 ∧ s.blockmode = rw then 1 else 0)) ∧
    ((handle_reg_0x0c b rw s).inblock = 0x0c ↔ s.inblock = 0x0b ∧ s.blockmode = rw) ∧
    (countAnn .BLOCK_ALARM2 (handle_reg_0x0d b rw s).out
      = countAnn .BLOCK_ALARM2 s.out
        + (if s.inblock = 0x0c ∧ s.blockmode = rw then 1 else 0)) ∧
    (countAnn .BLOCK_TEMPERATURE (handle_reg_0x12 b rw s).out
      = countAnn .BLOCK_TEMPERATURE s.out + (if s.inblock = 0x11 then 1 else 0)) := by
  refine ⟨?_, ?_, ?_, ?_, ?_, h06_blockcount b rw s, ?_, ?_, h0a_blockcount b rw s, ?_,
    h0d_blockcount b rw s, h12_blockcount b rw s⟩
  · rw [h01_inblock b rw s]; split_ifs with h <;> simp [h]
  · rw [h02_inblock b rw s]; split_ifs with h <;> simp [h]
  · rw [h03_inblock b rw s]; split_ifs with h <;> simp [h]
  · rw [h04_inblock b rw s]; split_ifs with h <;> simp [h]
  · rw [h05_inblock b rw s]; split_ifs with h <;> simp [h]
  · rw [h08_inblock b rw s]; split_ifs with h <;> simp [h]
  · rw [h09_inblock b rw s]; split_ifs with h <;> simp [h]
  · rw [h0c_inblock b rw s]; split_ifs with h <;> simp [h]

/-- Claim C1, counterexample to the claim as stated: in `c1trace` the
Temperature MSB (0x11) is accessed in a Read transaction and the LSB
(0x12) in a subsequent Write transaction — the direction changes
between the two accesses — yet the decoder still emits the aggregated
Temperature block event. -/
theorem spec_C1_counterexample :
    annTexts .BLOCK_TEMPERATURE (runTrace c1trace (initState ("SN") 0x11 ("Monday"))).out
      = [["Wrote block data: Temperature: 25.75"]] := by
  decide

/-- Claim C2 (amended).  The end-to-end scenario
`START, ADDRESS_WRITE(0x68), DATA_WRITE(0x00), 0x30, 0x45, 0x12, 0x03,
0x15, 0x06, 0x23, STOP` with default configuration (fdw = Monday)
emits exactly one Date/Time block event, reporting weekday Wednesday
(day register 3 indexes the third entry of the Monday ordering), date
15.06.2023 and time 12:45:30. -/
theorem spec_C2_datetime_scenario :
    annTexts .BLOCK_DATE_TIME (runTrace c2trace (initState ("SN") 0 ("Monday"))).out
      = [["Wrote Date / time: Wednesday, 15.06.2023 12:45:30"]] := by
  decide

/-- Claim C2, counterexample to the claim as stated: the single
Date/Time event of the scenario does not report Tuesday. -/
theorem spec_C2_counterexample :
    countAnn .BLOCK_DATE_TIME (runTrace c2trace (initState ("SN") 0 ("Monday"))).out = 1 ∧
    annTexts .BLOCK_DATE_TIME (runTrace c2trace (initState ("SN") 0 ("Monday"))).out
      ≠ [["Wrote Date / time: Tuesday, 15.06.2023 12:45:30"]] := by
  constructor <;> decide

/-- Claim C3.  Starting from any register pointer in [0x00, 0x12], N
successive in-range dispatches advance the pointer by N modulo 19, for
arbitrary data bytes and directions (the increment is applied after
the handler unconditionally), and a single dispatch wraps exactly at
0x12 → 0x00. -/
theorem spec_C3_register_pointer :
    (∀ (ps : List (Nat × String)) (s : St), 0 ≤ s.reg → s.reg < 0x13 →
      (ps.foldl (fun st p => handle_reg p.1 p.2 st) s).reg = (s.reg + ps.length) % 19) ∧
    (∀ (b : Nat) (rw : String) (s : St), 0 ≤ s.reg → s.reg < 0x13 →
      (handle_reg b rw s).reg = (if s.reg = 0x12 then 0 else s.reg + 1)) := by
  constructor
  · intro ps
    induction ps with
    | nil =>
      intro s h1 h2
      simpa using (Int.emod_eq_of_lt h1 (by omega)).symm
    | cons p t ih =>
      intro s h1 h2
      rw [List.foldl_cons]
      have e := handle_reg_inrange_reg p.1 p.2 s h1 h2
      have h1' : 0 ≤ (handle_reg p.1 p.2 s).reg := by rw [e]; split_ifs <;> omega
      have h2' : (handle_reg p.1 p.2 s).reg < 0x13 := by rw [e]; split_ifs <;> omega
      rw [ih _ h1' h2', e, List.length_cons]
      split_ifs <;> omega
  · exact handle_reg_inrange_reg

/-- Claim C3, witness: one dispatch from pointer 0x12 wraps to 0x00. -/
theorem spec_C3_witness :
    (([((0x30 : Nat), "Wrote")] : List (Nat × String)).foldl
        (fun st p => handle_reg p.1 p.2 st) (initState ("SN") 0x12 ("Monday"))).reg = 0 := by
  have h := spec_C3_register_pointer.1 [((0x30 : Nat), "Wrote")]
    (initState ("SN") 0x12 ("Monday")) (by decide) (by decide)
  rw [h]
  decide

/-- Claim C4.  Dispatching a data byte while the register pointer lies
outside [0x00, 0x12] leaves the whole state unchanged except for
appending exactly one out-of-range warning event: no register handler
runs, no per-bit or per-register event is emitted, and the pointer is
not incremented, so subsequent primitives are processed normally. -/
theorem spec_C4_out_of_range_dispatch (b : Nat) (rw : String) (s : St)
    (h : ¬(0 ≤ s.reg ∧ s.reg < 0x13)) :
    handle_reg b rw s =
      { s with
        out := s.out ++ [⟨s.ss, s.es, .WARNING,
          ["Ignoring out-of-range register 0x" ++ pyHex02X s.reg]⟩] } :=
  handle_reg_oor b rw s h

/-- Claim C4, witness at register pointer 0x13. -/
theorem spec_C4_witness :
    handle_reg 0 ("Wrote") c4state =
      { c4state with
        out := c4state.out ++ [⟨c4state.ss, c4state.es, .WARNING,
          ["Ignoring out-of-range register 0x" ++ pyHex02X c4state.reg]⟩] } :=
  spec_C4_out_of_range_dispatch 0 ("Wrote") c4state (by decide)

/-- Claim C5 (amended).  The out-of-range branch is reachable from
well-formed input (see the counterexample); it is unreachable exactly
under the additional condition that every register-pointer byte
written in the `GET REG ADDR` state lies in [0x00, 0x12]: along any
trace addressed to the DS3231 whose pointer writes are in range,
starting with the register pointer in range, no warning event of any
kind is emitted and the pointer stays in range. -/
theorem spec_C5_oor_unreachable_amended :
    ∀ (tr : List Packet) (s : St), 0 ≤ s.reg → s.reg ≤ 0x12 → okTrace s tr = true →
      countAnn .WARNING (runTrace tr s).out = countAnn .WARNING s.out ∧
      0 ≤ (runTrace tr s).reg ∧ (runTrace tr s).reg ≤ 0x12 := by
  intro tr
  induction tr with
  | nil => intro s h1 h2 _; exact ⟨rfl, h1, h2⟩
  | cons p t ih =>
    intro s h1 h2 hok
    rw [okTrace, Bool.and_eq_true] at hok
    obtain ⟨hs, ht⟩ := hok
    have hstep := decode_ok_step p.pss p.pes p.cmd s h1 h2 hs
    have hrec := ih (decode p.pss p.pes p.cmd s) hstep.2.1 hstep.2.2 ht
    rw [runTrace_cons]
    exact ⟨hrec.1.trans hstep.1, hrec.2.1, hrec.2.2⟩

/-- Claim C5, counterexample to the claim as stated: with the default
in-range initial pointer, the well-formed trace `START,
ADDRESS_WRITE(0x68), DATA_WRITE(0x13), DATA_WRITE(0x00)` reaches the
out-of-range warning branch, because the master may set the register
pointer to any byte value. -/
theorem spec_C5_counterexample :
    (runTrace c5trace (initState ("SN") 0 ("Monday"))).out
      = [⟨6, 7, .WARNING, ["Ignoring out-of-range register 0x13"]⟩] ∧
    (initState ("SN") 0 ("Monday")).reg = 0 := by
  constructor <;> decide

/-- Claim C5, witness: the Date/Time write trace is `okTrace` and
yields no warnings, with the pointer remaining in range. -/
theorem spec_C5_witness :
    countAnn .WARNING (runTrace c2trace (initState ("SN") 0 ("Monday"))).out
      = countAnn .WARNING (initState ("SN") 0 ("Monday")).out ∧
    0 ≤ (runTrace c2trace (initState ("SN") 0 ("Monday"))).reg ∧
    (runTrace c2trace (initState ("SN") 0 ("Monday"))).reg ≤ 0x12 :=
  spec_C5_oor_unreachable_amended c2trace (initState ("SN") 0 ("Monday"))
    (by decide) (by decide) (by decide)

/-- Claim C6.  An ADDRESS_WRITE or ADDRESS_READ carrying an address
other than 0x68 while awaiting the slave address appends exactly one
warning event and returns the machine to Idle, leaving everything else
unchanged (so subsequent transactions decode normally); in particular
`START, ADDRESS_WRITE(0x50), STOP` yields exactly one warning event,
zero register-decode events, and final state Idle. -/
theorem spec_C6_wrong_address :
    (∀ (pss pes : Int) (b : Nat) (s : St), b ≠ 0x68 → s.state = "GET SLAVE ADDR" →
      decode pss pes (.ADDRESSWRITE b) s =
        { s with
          ss := pss, es := pes, state := "IDLE",
          out := s.out ++ [⟨pss, pes, .WARNING,
            ["Ignoring non-DS3231 data (slave 0x" ++ pyHex02X (b : Int) ++ ")"]⟩] } ∧
      decode pss pes (.ADDRESSREAD b) s =
        { s with
          ss := pss, es := pes, state := "IDLE",
          out := s.out ++ [⟨pss, pes, .WARNING,
            ["Ignoring non-DS3231 data (slave 0x" ++ pyHex02X (b : Int) ++ ")"]⟩] }) ∧
    ((runTrace c6trace (initState ("SN") 0 ("Monday"))).out
        = [⟨2, 3, .WARNING, ["Ignoring non-DS3231 data (slave 0x50)"]⟩] ∧
     (runTrace c6trace (initState ("SN") 0 ("Monday"))).state = "IDLE") := by
  constructor
  · intro pss pes b s hb hstate
    constructor <;>
      (delta decode; dsimp only; simp [is_correct_chip, put, DS3231_I2C_ADDRESS, hstate, hb])
  · constructor <;> decide

/-- Claim C6, witness at address 0x50 from the awaiting-address state. -/
theorem spec_C6_witness :
    decode 2 3 (.ADDRESSWRITE 0x50) c6state =
      { c6state with
        ss := 2, es := 3, state := "IDLE",
        out := c6state.out ++ [⟨2, 3, .WARNING,
          ["Ignoring non-DS3231 data (slave 0x" ++ pyHex02X ((0x50 : Nat) : Int) ++ ")"]⟩] } :=
  (spec_C6_wrong_address.1 2 3 0x50 c6state (by decide) (by decide)).1

/-- Claim C7.  The Alarm1 mode interpretation is total on all 16
combinations of (A1M1, A1M2, A1M3, A1M4): (1,1,1,1) renders "every
second", (0,1,1,1) "every minute" at the given seconds, (0,0,1,1)
"every hour" at the given mm:ss, (0,0,0,1) "daily" at the given
hh:mm:ss, (0,0,0,0) the given day-or-date (selected by the day/date
bit) and hh:mm:ss, and each of the remaining 11 combinations the
"invalid setting" label. -/
theorem spec_C7_alarm1_mode_table :
    ∀ (sec mnt hrs : Int) (ap : String) (dy : Int) (ws : String) (da : Int),
    alarm1_desc 1 1 1 1 sec mnt hrs ap dy ws da = "every second" ∧
    alarm1_desc 0 1 1 1 sec mnt hrs ap dy ws da = "every minute, second=" ++ pad2 sec ∧
    alarm1_desc 0 0 1 1 sec mnt hrs ap dy ws da
      = "every hour, mm:ss=" ++ pad2 mnt ++ ":" ++ pad2 sec ∧
    alarm1_desc 0 0 0 1 sec mnt hrs ap dy ws da
      = "daily, hh:mm:ss=" ++ pad2 hrs ++ ":" ++ pad2 mnt ++ ":" ++ pad2 sec ++ ap ∧
    alarm1_desc 0 0 0 0 sec mnt hrs ap dy ws da
      = (if dy = 1 then ws else toString da ++ ". of every month")
          ++ ", " ++ pad2 hrs ++ ":" ++ pad2 mnt ++ ":" ++ pad2 sec ∧
    (∀ m1 m2 m3 m4 : Int, (m1 = 0 ∨ m1 = 1) → (m2 = 0 ∨ m2 = 1) →
      (m3 = 0 ∨ m3 = 1) → (m4 = 0 ∨ m4 = 1) →
      (m1, m2, m3, m4) ∉
        ([(1, 1, 1, 1), (0, 1, 1, 1), (0, 0, 1, 1), (0, 0, 0, 1), (0, 0, 0, 0)]
          : List (Int × Int × Int × Int)) →
      alarm1_desc m1 m2 m3 m4 sec mnt hrs ap dy ws da = "invalid setting") := by
  intro sec mnt hrs ap dy ws da
  refine ⟨rfl, rfl, rfl, rfl, rfl, ?_⟩
  rintro m1 m2 m3 m4 (rfl | rfl) (rfl | rfl) (rfl | rfl) (rfl | rfl) hn <;>
    simp_all [alarm1_desc]

/-- Claim C7, witness at the combination (1,0,1,1). -/
theorem spec_C7_witness :
    alarm1_desc 1 0 1 1 0 0 0 ("") 0 ("Monday") 5 = "invalid setting" :=
  (spec_C7_alarm1_mode_table 0 0 0 ("") 0 ("Monday") 5).2.2.2.2.2 1 0 1 1
    (Or.inr rfl) (Or.inl rfl) (Or.inr rfl) (Or.inr rfl) (by decide)

/-- Claim C8.  Handling the Temperature MSB and then the LSB emits one
Temperature block event whose value is computed as
`theta = (unsigned MSB << 2) + (LSB >> 6)` with 1024 subtracted iff
`theta ≥ 512`, rendered as `theta / 4`; in particular MSB = 0x19,
LSB = 0xC0 gives `theta = 103` and temperature 25.75. -/
theorem spec_C8_temperature :
    (∀ (msb lsb : Nat) (rw1 rw2 : String) (s : St),
      annTexts .BLOCK_TEMPERATURE (handle_reg_0x12 lsb rw2 (handle_reg_0x11 msb rw1 s)).out
        = annTexts .BLOCK_TEMPERATURE s.out
          ++ [[rw2 ++ " block data: Temperature: " ++ pyFloatQuarters (theta_spec msb lsb)]]) ∧
    theta_spec 0x19 0xC0 = 103 ∧ pyFloatQuarters 103 = "25.75" ∧ ((103 : ℚ) / 4 = 25.75) := by
  refine ⟨?_, by decide, by decide, by norm_num⟩
  intro msb lsb rw1 rw2 s
  have hshift : ((lsb >>> 6 : Nat) : Int) = (lsb : Int) / 64 := by
    rw [Nat.shiftRight_eq_div_pow]
    norm_num [Int.ofNat_div]
  unfold handle_reg_0x11 handle_reg_0x12 theta_spec
  repeat' split
  all_goals simp_all [putd, putr, put, annTexts, ge_iff_le]
  all_goals exact blockdata_fold rw2 _

/-- Claim C9 (amended).  A STOP primitive in the register-pointer,
writing or reading states returns the machine to Idle; in the
awaiting-slave-address state it is ignored (the state stays
`GET SLAVE ADDR`, see the counterexample).  In all cases everything
except the protocol state and the packet span is untouched — register
pointer, `inblock`, `startreg`, `blockmode` and all cached fields
survive — so the interrupted Date/Time block of `c9trace` still emits
its aggregated event when a later same-direction transaction resumes
at the expected register 0x06. -/
theorem spec_C9_stop_preserves_state :
    (∀ (pss pes : Int) (s : St), decode pss pes .STOP s =
      { s with
        ss := pss, es := pes,
        state := if s.state = "GET REG ADDR" ∨ s.state = "WRITE RTC REGS"
                    ∨ s.state = "READ RTC REGS"
                 then "IDLE" else s.state }) ∧
    annTexts .BLOCK_DATE_TIME (runTrace c9trace (initState ("SN") 0 ("Monday"))).out
      = [["Wrote Date / time: Wednesday, 15.06.2023 12:45:30"]] := by
  constructor
  · intro pss pes s
    by_cases h1 : s.state = "IDLE"
    · (delta decode; dsimp only; simp [h1])
    · by_cases h2 : s.state = "GET SLAVE ADDR"
      · (delta decode; dsimp only; simp [h1, h2])
      · by_cases h3 : s.state = "GET REG ADDR"
        · (delta decode; dsimp only; simp [h1, h2, h3])
        · by_cases h4 : s.state = "WRITE RTC REGS"
          · (delta decode; dsimp only; simp [h1, h2, h3, h4])
          · by_cases h5 : s.state = "READ RTC REGS"
            · (delta decode; dsimp only; simp [h1, h2, h3, h4, h5])
            · (delta decode; dsimp only; simp [h1, h2, h3, h4, h5])
  · decide

/-- Claim C9, counterexample to the claim as stated: after `START`,
a STOP does not return the machine to Idle — it is ignored in the
awaiting-slave-address state. -/
theorem spec_C9_counterexample :
    (runTrace [⟨0, 1, .START⟩, ⟨2, 3, .STOP⟩] (initState ("SN") 0 ("Monday"))).state
      ≠ "IDLE" := by
  decide

/-- Claim C10.  When the masked weekday value of a byte is 0 (below
the documented 1-7 range), the Day register 0x03 and the alarm
Day/Date registers 0x0A and 0x0D in weekday mode do not fail: the
lookup index becomes -1 and Python's negative indexing renders the
last (7th) weekday name of the configured first-day-of-week ordering. -/
theorem spec_C10_weekday_zero (b : Nat) (rw : String) (s : St)
    (hf : s.optFdw = "Monday" ∨ s.optFdw = "Sunday" ∨ s.optFdw = "Saturday")
    (hb : b &&& 0x07 = 0) :
    (annTexts .BIT_DAY (handle_reg_0x03 b rw s).out
       = annTexts .BIT_DAY s.out ++
         [["Weekday: " ++ (days_of_week s.optFdw).getLastD (""),
           "WD: " ++ (days_of_week s.optFdw).getLastD (""), "WD", "W"]]) ∧
    (b &&& (1 <<< 6) ≠ 0 →
      annTexts .BIT_DAY (handle_reg_0x0a b rw s).out
        = annTexts .BIT_DAY s.out ++
          [["Weekday: " ++ (days_of_week s.optFdw).getLastD (""), "WD: 0", "WD", "W"]]) ∧
    (b &&& (1 <<< 6) ≠ 0 →
      annTexts .BIT_DAY (handle_reg_0x0d b rw s).out
        = annTexts .BIT_DAY s.out ++
          [["Weekday: " ++ (days_of_week s.optFdw).getLastD (""), "WD: 0", "WD", "W"]]) := by
  refine ⟨?_, ?_, ?_⟩
  · unfold handle_reg_0x03
    rcases hf with hf | hf | hf <;>
      simp [putd, putr, put, hb, hf, days_of_week, pyIndex, bcd2int]
  · intro h64
    have h64' : ¬(b &&& 64 = 0) := by simpa using h64
    have ht : toString (0 : Int) = "0" := rfl
    unfold handle_reg_0x0a
    rcases hf with hf | hf | hf <;>
      simp [putd, putr, put, hb, hf, h64', ht, days_of_week, pyIndex, bcd2int]
  · intro h64
    have h64' : ¬(b &&& 64 = 0) := by simpa using h64
    have ht : toString (0 : Int) = "0" := rfl
    unfold handle_reg_0x0d
    rcases hf with hf | hf | hf <;>
      simp [putd, putr, put, hb, hf, h64', ht, days_of_week, pyIndex, bcd2int]

/-- Claim C10, witness at byte 0x40 (weekday mode, masked weekday 0)
with the Monday ordering: the rendered name is Sunday, the 7th entry. -/
theorem spec_C10_witness :
    (annTexts .BIT_DAY (handle_reg_0x03 0x40 ("Wrote") (initState ("SN") 0 ("Monday"))).out
       = annTexts .BIT_DAY (initState ("SN") 0 ("Monday")).out ++
         [["Weekday: " ++ (days_of_week (initState ("SN") 0 ("Monday")).optFdw).getLastD (""),
           "WD: " ++ (days_of_week (initState ("SN") 0 ("Monday")).optFdw).getLastD (""),
           "WD", "W"]]) ∧
    (annTexts .BIT_DAY (handle_reg_0x0a 0x40 ("Wrote") (initState ("SN") 0 ("Monday"))).out
       = annTexts .BIT_DAY (initState ("SN") 0 ("Monday")).out ++
         [["Weekday: " ++ (days_of_week (initState ("SN") 0 ("Monday")).optFdw).getLastD (""),
           "WD: 0", "WD", "W"]]) :=
  ⟨(spec_C10_weekday_zero 0x40 ("Wrote") (initState ("SN") 0 ("Monday"))
      (Or.inl rfl) (by decide)).1,
   (spec_C10_weekday_zero 0x40 ("Wrote") (initState ("SN") 0 ("Monday"))
      (Or.inl rfl) (by decide)).2.1 (by decide)⟩

end DS3231
